import Mathlib

/-!
# Verification of the tantivy segment storage layer

Shallow embedding of `src/core/segment.rs` and `src/indexer/segment_entry.rs`
(the `Segment`, `SegmentDirectory` and `SegmentEntry` types and their
operations), together with the external collaborator types they use
(`SegmentMeta`, `BitSet`, the directory backends), which are modelled from
the specification where their code is not part of the excerpt.

Paths are modelled as `String`, byte contents as `List Nat`, opstamps and
document counts as `Nat`.
-/

/-- Modelled from the spec: `SegmentId` is an opaque, globally unique,
immutable identifier; we model it as a natural number, with `uuid_string`
its textual rendering used to derive file paths. -/
abbrev SegmentId : Type := Nat

/-- Modelled from the spec: the textual rendering of a segment id used as a
file-name stem. -/
def SegmentId.uuid_string (id : SegmentId) : String := toString (id : Nat)

/-- Modelled from the spec: `Opstamp` is a monotonically increasing version
marker; a plain natural number. -/
abbrev Opstamp : Type := Nat

/-- Modelled from the spec: the fixed enumeration of file kinds a segment
may have (external collaborator, consumed as a closed set). -/
inductive SegmentComponent where
  | Postings
  | Positions
  | FastFields
  | FieldNorms
  | Terms
  | Store
  | Delete
deriving DecidableEq

/-- Modelled from the spec: the canonical path suffix associated to each
segment component (externally defined file-extension mapping, consumed). -/
def SegmentComponent.ext : SegmentComponent → String
  | .Postings => ".idx"
  | .Positions => ".pos"
  | .FastFields => ".fast"
  | .FieldNorms => ".fieldnorm"
  | .Terms => ".term"
  | .Store => ".store"
  | .Delete => ".del"

/-- Modelled from the spec: the schema is shared, read-only field-definition
state; its internal structure is irrelevant here, so it is a wrapped list of
field names. -/
structure Schema where
  fields : List String
deriving DecidableEq

/-- Modelled from the spec: the persisted representation of a segment
descriptor is `\x7bid, max_doc, num_deleted_docs, opstamp, generation\x7d`;
updates never mutate in place. -/
structure SegmentMeta where
  id : SegmentId
  max_doc : Nat
  num_deleted_docs : Nat
  opstamp : Opstamp
  generation : Nat
deriving DecidableEq

/-- Modelled from the spec: `with_max_doc` returns a new descriptor with
`max_doc` set; all other fields are preserved unchanged. -/
def SegmentMeta.with_max_doc (meta : SegmentMeta) (max_doc : Nat) : SegmentMeta :=
  { meta with max_doc := max_doc }

/-- Modelled from the spec: `with_delete_meta` returns a new descriptor
reflecting a later deletion event; the spec notes the reference shows no
explicit monotonicity enforcement, so the supplied values are recorded
verbatim and the other fields are preserved. -/
def SegmentMeta.with_delete_meta (meta : SegmentMeta) (num_deleted_docs : Nat)
    (opstamp : Opstamp) : SegmentMeta :=
  { meta with num_deleted_docs := num_deleted_docs, opstamp := opstamp }

/-- Modelled from the spec: `relative_path` just joins the segment id with
the extension associated to a segment component — a pure derivation from
`(id, component)`. -/
def SegmentMeta.relative_path (meta : SegmentMeta) (component : SegmentComponent) : String :=
  meta.id.uuid_string ++ component.ext

/-- The error type of read-opens, surfaced verbatim: `\x7bNotFound, IoError\x7d`. -/
inductive OpenReadError where
  | FileDoesNotExist (path : String)
  | IoError (msg : String)
deriving DecidableEq

/-- The error type of write-opens, surfaced verbatim:
`\x7bFileAlreadyExists, IoError\x7d`. -/
inductive OpenWriteError where
  | FileAlreadyExists (path : String)
  | IoError (msg : String)
deriving DecidableEq

/-- Association-list lookup of a file's bytes by path. -/
def lookupFile : List (String × List Nat) → String → Option (List Nat)
  | [], _ => none
  | (k, v) :: rest, p => if k = p then some v else lookupFile rest p

/-- Modelled from the spec: the transient, fully in-memory store
(`RAMDirectory`); a map from paths to byte contents. -/
structure RAMDirectory where
  files : List (String × List Nat)
deriving DecidableEq

/-- `RAMDirectory::create` — a fresh, empty volatile store. -/
def RAMDirectory.create : RAMDirectory := ⟨[]⟩

/-- Modelled from the spec: `open_read(path)` on the volatile store returns
the file's bytes or fails with `FileDoesNotExist`. -/
def RAMDirectory.open_read (d : RAMDirectory) (path : String) :
    Except OpenReadError (List Nat) :=
  match lookupFile d.files path with
  | some bytes => .ok bytes
  | none => .error (.FileDoesNotExist path)

/-- Modelled from the spec: `open_write(path)` on the volatile store fails
with `FileAlreadyExists` when the path exists, otherwise registers an empty
file and hands out the (sole) write capability, represented by the updated
store. -/
def RAMDirectory.open_write (d : RAMDirectory) (path : String) :
    Except OpenWriteError RAMDirectory :=
  match lookupFile d.files path with
  | some _ => .error (.FileAlreadyExists path)
  | none => .ok ⟨(path, []) :: d.files⟩

/-- Modelled from the spec: writing bytes through the held write handle and
releasing it leaves `path` mapped to exactly those bytes. -/
def RAMDirectory.writeAll (d : RAMDirectory) (path : String) (bytes : List Nat) :
    RAMDirectory :=
  ⟨(path, bytes) :: d.files⟩

/-- Modelled from the spec: the durable store scoped to the owning index
(`ManagedDirectory`); only its read/write capability is used here. -/
structure ManagedDirectory where
  files : List (String × List Nat)
deriving DecidableEq

/-- Modelled from the spec: `open_read(path)` on the durable store. -/
def ManagedDirectory.open_read (d : ManagedDirectory) (path : String) :
    Except OpenReadError (List Nat) :=
  match lookupFile d.files path with
  | some bytes => .ok bytes
  | none => .error (.FileDoesNotExist path)

/-- Modelled from the spec: `open_write(path)` on the durable store. -/
def ManagedDirectory.open_write (d : ManagedDirectory) (path : String) :
    Except OpenWriteError ManagedDirectory :=
  match lookupFile d.files path with
  | some _ => .error (.FileAlreadyExists path)
  | none => .ok ⟨(path, []) :: d.files⟩

/-- Modelled from the spec: write through a held handle on the durable
store. -/
def ManagedDirectory.writeAll (d : ManagedDirectory) (path : String) (bytes : List Nat) :
    ManagedDirectory :=
  ⟨(path, bytes) :: d.files⟩

/-- `SegmentDirectory` (core/segment.rs:19): tagged union over the two
storage backends. -/
inductive SegmentDirectory where
  | Persisted (dir : ManagedDirectory)
  | Volatile (dir : RAMDirectory)
deriving DecidableEq

/-- `From<ManagedDirectory> for SegmentDirectory` (core/segment.rs:24). -/
def SegmentDirectory.fromManaged (directory : ManagedDirectory) : SegmentDirectory :=
  .Persisted directory

/-- The `Deref` dispatch (core/segment.rs:30): `open_read` delegated to
whichever variant is active. -/
def SegmentDirectory.open_read : SegmentDirectory → String → Except OpenReadError (List Nat)
  | .Persisted d, path => d.open_read path
  | .Volatile d, path => d.open_read path

/-- The `DerefMut` dispatch (core/segment.rs:41): `open_write` delegated to
whichever variant is active; the updated backend stays in the same
variant. -/
def SegmentDirectory.open_write :
    SegmentDirectory → String → Except OpenWriteError SegmentDirectory
  | .Persisted d, path =>
      match d.open_write path with
      | .error e => .error e
      | .ok d2 => .ok (.Persisted d2)
  | .Volatile d, path =>
      match d.open_write path with
      | .error e => .error e
      | .ok d2 => .ok (.Volatile d2)

/-- Write through a held handle, dispatched to the active variant. -/
def SegmentDirectory.writeAll : SegmentDirectory → String → List Nat → SegmentDirectory
  | .Persisted d, path, bytes => .Persisted (d.writeAll path bytes)
  | .Volatile d, path, bytes => .Volatile (d.writeAll path bytes)

/-- Whether the active variant is `Persisted`. -/
def SegmentDirectory.isPersisted : SegmentDirectory → Bool
  | .Persisted _ => true
  | .Volatile _ => false

/-- Modelled from the spec: the slice of `Index` consumed by
`Segment::for_index` — its durable directory and its schema. -/
structure Index where
  directory : ManagedDirectory
  schema : Schema
deriving DecidableEq

/-- `Segment` (core/segment.rs:52): schema snapshot, descriptor, and the
directory abstraction. -/
structure Segment where
  schema : Schema
  meta : SegmentMeta
  directory : SegmentDirectory
deriving DecidableEq

/-- `Segment::for_index` (core/segment.rs:72): builds a Persisted-backed
segment from the index's directory and schema with caller-supplied meta;
the `persisted` argument is not used by the body. -/
def Segment.for_index (index : Index) (meta : SegmentMeta) (persisted : Bool) : Segment :=
  { directory := SegmentDirectory.Persisted index.directory
    schema := index.schema
    meta := meta }

/-- `Segment::new_unpersisted` (core/segment.rs:84): a segment backed by a
fresh `RAMDirectory`. -/
def Segment.new_unpersisted (meta : SegmentMeta) (schema : Schema) : Segment :=
  { schema := schema
    meta := meta
    directory := SegmentDirectory.Volatile RAMDirectory.create }

/-- `Segment::with_max_doc` (core/segment.rs:105): rebuild with an updated
descriptor, keeping directory and schema. -/
def Segment.with_max_doc (s : Segment) (max_doc : Nat) : Segment :=
  { directory := s.directory
    schema := s.schema
    meta := s.meta.with_max_doc max_doc }

/-- `Segment::with_delete_meta` (core/segment.rs:114): rebuild with an
updated descriptor, keeping directory and schema. -/
def Segment.with_delete_meta (s : Segment) (num_deleted_docs : Nat)
    (opstamp : Opstamp) : Segment :=
  { directory := s.directory
    schema := s.schema
    meta := s.meta.with_delete_meta num_deleted_docs opstamp }

/-- `Segment::id` (core/segment.rs:123). -/
def Segment.id (s : Segment) : SegmentId := s.meta.id

/-- `Segment::relative_path` (core/segment.rs:131): delegates to the
descriptor. -/
def Segment.relative_path (s : Segment) (component : SegmentComponent) : String :=
  s.meta.relative_path component

/-- `Segment::open_read` (core/segment.rs:136): derive the path, delegate
to the directory, propagate any error with `?`. -/
def Segment.open_read (s : Segment) (component : SegmentComponent) :
    Except OpenReadError (List Nat) :=
  match s.directory.open_read (s.relative_path component) with
  | .error e => .error e
  | .ok source => .ok source

/-- `Segment::open_write` (core/segment.rs:146): derive the path, delegate
to the directory, propagate any error with `?`; the returned handle is
identified by its path, and `&mut self` is the returned segment. -/
def Segment.open_write (s : Segment) (component : SegmentComponent) :
    Except OpenWriteError (String × Segment) :=
  match s.directory.open_write (s.relative_path component) with
  | .error e => .error e
  | .ok d => .ok (s.relative_path component, { s with directory := d })

/-- Writing bytes through a handle obtained from `open_write` and releasing
it (the directory ends up holding exactly those bytes at the handle's
path). -/
def Segment.writeAll (s : Segment) (path : String) (bytes : List Nat) : Segment :=
  { s with directory := s.directory.writeAll path bytes }

/-- Modelled from the spec: `BitSet` is one bit per document ordinal in
`[0, max_doc)`; its length is the number of bits. -/
structure BitSet where
  bits : List Bool
deriving DecidableEq

/-- The number of document ordinals the bitset covers. -/
def BitSet.len (b : BitSet) : Nat := b.bits.length

/-- Modelled from the spec: `DeleteCursor` is a position into the external
delete log. -/
abbrev DeleteCursor : Type := Nat

/-- The outcome of a call that may panic instead of returning. -/
inductive PanicOr (α : Type) where
  | panicked (msg : String)
  | ret (value : α)
deriving DecidableEq

/-- `SegmentEntry` (indexer/segment_entry.rs:24). -/
structure SegmentEntry where
  meta : SegmentMeta
  delete_bitset : Option BitSet
  delete_cursor : DeleteCursor
  directory : SegmentDirectory
deriving DecidableEq

/-- `SegmentEntry::new` (indexer/segment_entry.rs:33): stores the supplied
fields without any check. -/
def SegmentEntry.new (segment_meta : SegmentMeta) (delete_cursor : DeleteCursor)
    (delete_bitset : Option BitSet) (directory : SegmentDirectory) : SegmentEntry :=
  { meta := segment_meta
    delete_bitset := delete_bitset
    delete_cursor := delete_cursor
    directory := directory }

/-- `SegmentEntry::persist` (indexer/segment_entry.rs:47): the body begins
with `unimplemented!()`, which panics before the directory assignment and
the `Ok(())`; the entry (the final state of `&mut self`) is returned
untouched. -/
def SegmentEntry.persist (e : SegmentEntry) (_directory : ManagedDirectory) :
    SegmentEntry × PanicOr (Except String Unit) :=
  (e, .panicked "not implemented")

/-- `SegmentEntry::set_meta` (indexer/segment_entry.rs:62): wholesale
replacement of the descriptor; no reconciliation with the previous value,
the other fields untouched. -/
def SegmentEntry.set_meta (e : SegmentEntry) (segment_meta : SegmentMeta) : SegmentEntry :=
  { e with meta := segment_meta }

/-- `SegmentEntry::delete_cursor` (indexer/segment_entry.rs:67) hands out
`&mut` access; an arbitrary caller update of the cursor through it. -/
def SegmentEntry.set_delete_cursor (e : SegmentEntry) (pos : DeleteCursor) : SegmentEntry :=
  { e with delete_cursor := pos }

/-- `SegmentEntry::segment_id` (indexer/segment_entry.rs:72). -/
def SegmentEntry.segment_id (e : SegmentEntry) : SegmentId := e.meta.id

/-- The SegmentEntry length invariant stated by the spec, as a decidable
check: if `delete_bitset` is present, its length equals `meta.max_doc`. -/
def SegmentEntry.invariantHolds (e : SegmentEntry) : Bool :=
  match e.delete_bitset with
  | none => true
  | some b => b.len == e.meta.max_doc

/-- The operations available on a `Segment` value after construction, for
stating lifecycle properties over sequences of calls. -/
inductive SegmentOp where
  | withMaxDocOp (max_doc : Nat)
  | withDeleteMetaOp (num_deleted_docs : Nat) (opstamp : Opstamp)
  | openReadOp (component : SegmentComponent)
  | openWriteOp (component : SegmentComponent)
  | writeAllOp (path : String) (bytes : List Nat)

/-- Applying one operation to a `Segment`: `open_read` takes `&self` and
leaves the segment unchanged; a failed `open_write` leaves it unchanged. -/
def Segment.step (s : Segment) : SegmentOp → Segment
  | .withMaxDocOp n => s.with_max_doc n
  | .withDeleteMetaOp nd os => s.with_delete_meta nd os
  | .openReadOp _ => s
  | .openWriteOp c =>
      match s.open_write c with
      | .ok (_, t) => t
      | .error _ => s
  | .writeAllOp path bytes => s.writeAll path bytes

/-- The operations available on a `SegmentEntry` after construction. -/
inductive EntryOp where
  | setMetaOp (segment_meta : SegmentMeta)
  | persistOp (directory : ManagedDirectory)
  | setDeleteCursorOp (pos : DeleteCursor)

/-- Applying one operation to a `SegmentEntry`: `persist` panics, so its
resulting state is the untouched entry. -/
def SegmentEntry.step (e : SegmentEntry) : EntryOp → SegmentEntry
  | .setMetaOp m => e.set_meta m
  | .persistOp d => (e.persist d).1
  | .setDeleteCursorOp pos => e.set_delete_cursor pos

/-- All intermediate states of a `Segment` along a sequence of operations,
the start state included. -/
def segmentStates (s : Segment) : List SegmentOp → List Segment
  | [] => [s]
  | op :: ops => s :: segmentStates (s.step op) ops

/-- All intermediate states of a `SegmentEntry` along a sequence of
operations, the start state included. -/
def entryStates (e : SegmentEntry) : List EntryOp → List SegmentEntry
  | [] => [e]
  | op :: ops => e :: entryStates (e.step op) ops

/-- The number of adjacent flips in a list of booleans (how often the
directory variant changes along a trace). -/
def boolChanges : List Bool → Nat
  | a :: b :: rest => (if a = b then 0 else 1) + boolChanges (b :: rest)
  | _ => 0

theorem SegmentDirectory.open_write_isPersisted (d : SegmentDirectory) (path : String)
    (d2 : SegmentDirectory) (h : d.open_write path = .ok d2) :
    d2.isPersisted = d.isPersisted := by
  cases d with
  | Persisted m =>
      simp only [SegmentDirectory.open_write] at h
      cases hm : ManagedDirectory.open_write m path with
      | error e => rw [hm] at h; cases h
      | ok m2 => rw [hm] at h; cases h; rfl
  | Volatile r =>
      simp only [SegmentDirectory.open_write] at h
      cases hr : RAMDirectory.open_write r path with
      | error e => rw [hr] at h; cases h
      | ok r2 => rw [hr] at h; cases h; rfl

theorem Segment.step_isPersisted (s : Segment) (op : SegmentOp) :
    (s.step op).directory.isPersisted = s.directory.isPersisted := by
  cases op with
  | withMaxDocOp n => rfl
  | withDeleteMetaOp nd os => rfl
  | openReadOp c => rfl
  | openWriteOp c =>
      simp only [Segment.step]
      cases hw : s.open_write c with
      | error e => rfl
      | ok pair =>
          obtain ⟨path, t⟩ := pair
          simp only []
          simp only [Segment.open_write] at hw
          cases hd : SegmentDirectory.open_write s.directory (s.relative_path c) with
          | error e => rw [hd] at hw; cases hw
          | ok d2 =>
              rw [hd] at hw
              cases hw
              exact SegmentDirectory.open_write_isPersisted _ _ _ hd
  | writeAllOp path bytes =>
      show (s.directory.writeAll path bytes).isPersisted = s.directory.isPersisted
      cases s.directory <;> rfl

theorem SegmentEntry.step_directory (e : SegmentEntry) (op : EntryOp) :
    (e.step op).directory = e.directory := by
  cases op <;> rfl

theorem segmentStates_persistedTrace (s : Segment) (ops : List SegmentOp) :
    (segmentStates s ops).map (fun x => x.directory.isPersisted)
      = List.replicate (ops.length + 1) s.directory.isPersisted := by
  induction ops generalizing s with
  | nil => rfl
  | cons op rest ih =>
      simp only [segmentStates, List.map, List.length_cons]
      rw [ih (s.step op), Segment.step_isPersisted]
      rfl

theorem entryStates_persistedTrace (e : SegmentEntry) (ops : List EntryOp) :
    (entryStates e ops).map (fun x => x.directory.isPersisted)
      = List.replicate (ops.length + 1) e.directory.isPersisted := by
  induction ops generalizing e with
  | nil => rfl
  | cons op rest ih =>
      simp only [entryStates, List.map, List.length_cons]
      rw [ih (e.step op), SegmentEntry.step_directory]
      rfl

theorem boolChanges_replicate (b : Bool) : ∀ n, boolChanges (List.replicate n b) = 0
  | 0 => rfl
  | 1 => rfl
  | (n + 2) => by
      have ih := boolChanges_replicate b (n + 1)
      show (if b = b then 0 else 1) + boolChanges (List.replicate (n + 1) b) = 0
      rw [if_pos rfl, ih]

theorem chainImp_replicate (b : Bool) :
    ∀ n, List.Chain' (fun a c : Bool => a = true → c = true) (List.replicate n b)
  | 0 => List.chain'_nil
  | 1 => List.chain'_singleton b
  | (n + 2) => by
      have ih := chainImp_replicate b (n + 1)
      simp only [List.replicate] at *
      exact List.Chain'.cons (fun h => h) ih

theorem SegmentDirectory.open_read_writeAll (d : SegmentDirectory) (path : String)
    (bytes : List Nat) : (d.writeAll path bytes).open_read path = .ok bytes := by
  cases d <;>
    simp [SegmentDirectory.writeAll, SegmentDirectory.open_read, RAMDirectory.writeAll,
      RAMDirectory.open_read, ManagedDirectory.writeAll, ManagedDirectory.open_read,
      lookupFile]

/-- C1: `SegmentEntry::persist` never returns `Ok` — its body starts with
`unimplemented!()`, so every call panics with "not implemented" (it never
reaches the `Ok(())`), and the entry's `meta`, `delete_bitset`,
`delete_cursor` and `directory` are all left exactly as they were. -/
theorem c1_persist_never_ok_state_unchanged :
    ∀ (e : SegmentEntry) (d : ManagedDirectory),
      (e.persist d).2 = PanicOr.panicked "not implemented"
      ∧ (e.persist d).1.meta = e.meta
      ∧ (e.persist d).1.delete_bitset = e.delete_bitset
      ∧ (e.persist d).1.delete_cursor = e.delete_cursor
      ∧ (e.persist d).1.directory = e.directory :=
  fun _ _ => ⟨rfl, rfl, rfl, rfl, rfl⟩

/-- C2 counterexample: starting from a segment whose recorded deletion
opstamp is 42 (after `with_delete_meta(3, 42)`), the out-of-order call
`with_delete_meta(2, 41)` is not rejected and regresses the stored opstamp
to 41, strictly below 42. -/
theorem c2_with_delete_meta_regresses :
    ((Segment.new_unpersisted ⟨1, 100, 0, 0, 0⟩ ⟨[]⟩).with_delete_meta 3 42).meta.opstamp = 42
    ∧ (((Segment.new_unpersisted ⟨1, 100, 0, 0, 0⟩ ⟨[]⟩).with_delete_meta 3 42).with_delete_meta
          2 41).meta.opstamp = 41
    ∧ (((Segment.new_unpersisted ⟨1, 100, 0, 0, 0⟩ ⟨[]⟩).with_delete_meta 3 42).with_delete_meta
          2 41).meta.opstamp < 42 := by
  refine ⟨rfl, rfl, ?_⟩
  decide

/-- C2 amended: `with_delete_meta` performs no monotonicity check — it
unconditionally records the supplied `num_deleted_docs` and `opstamp`
(preserving the segment id and `max_doc`), so the stored opstamp after a
call is exactly the supplied one, even when it is lower than the previously
recorded opstamp. -/
theorem c2_with_delete_meta_stores_verbatim :
    ∀ (s : Segment) (num_deleted_docs : Nat) (opstamp : Opstamp),
      (s.with_delete_meta num_deleted_docs opstamp).meta.opstamp = opstamp
      ∧ (s.with_delete_meta num_deleted_docs opstamp).meta.num_deleted_docs = num_deleted_docs
      ∧ (s.with_delete_meta num_deleted_docs opstamp).meta.id = s.meta.id
      ∧ (s.with_delete_meta num_deleted_docs opstamp).meta.max_doc = s.meta.max_doc :=
  fun _ _ _ => ⟨rfl, rfl, rfl, rfl⟩

/-- C3 counterexample: an entry whose bitset length (5) matches
`meta.max_doc` (5) satisfies the invariant, but `set_meta` with a
descriptor whose `max_doc` is 7 leaves the bitset untouched and the
invariant no longer holds. -/
theorem c3_set_meta_breaks_invariant :
    (SegmentEntry.new ⟨1, 5, 0, 0, 0⟩ 0 (some ⟨[false, false, false, false, false]⟩)
        (SegmentDirectory.Volatile RAMDirectory.create)).invariantHolds = true
    ∧ ((SegmentEntry.new ⟨1, 5, 0, 0, 0⟩ 0 (some ⟨[false, false, false, false, false]⟩)
          (SegmentDirectory.Volatile RAMDirectory.create)).set_meta
            ⟨1, 7, 0, 9, 0⟩).invariantHolds = false
    ∧ ((SegmentEntry.new ⟨1, 5, 0, 0, 0⟩ 0 (some ⟨[false, false, false, false, false]⟩)
          (SegmentDirectory.Volatile RAMDirectory.create)).set_meta
            ⟨1, 7, 0, 9, 0⟩).delete_bitset
        = some ⟨[false, false, false, false, false]⟩ := by
  refine ⟨?_, ?_, rfl⟩ <;> decide

/-- C3 amended: `SegmentEntry::new` stores the supplied bitset without any
check, so the length invariant holds after construction exactly when the
caller supplies a bitset whose length equals the descriptor's `max_doc`;
and `set_meta` replaces the descriptor while leaving `delete_bitset`
untouched, so after `set_meta` the invariant holds exactly when the new
descriptor's `max_doc` equals the existing bitset's length — it is not
preserved when the two differ. -/
theorem c3_invariant_not_preserved_by_set_meta :
    ∀ (e : SegmentEntry) (mt : SegmentMeta) (m : SegmentMeta) (cursor : DeleteCursor)
      (b : BitSet) (d : SegmentDirectory),
      (e.set_meta mt).delete_bitset = e.delete_bitset
      ∧ ((e.set_meta mt).invariantHolds
          = match e.delete_bitset with
            | none => true
            | some bs => bs.len == mt.max_doc)
      ∧ (SegmentEntry.new m cursor (some b) d).invariantHolds = (b.len == m.max_doc) :=
  fun _ _ _ _ _ _ => ⟨rfl, rfl, rfl⟩

/-- C4: `with_max_doc(n)` yields a segment whose descriptor has
`max_doc = n` while its schema, directory, segment id and deletion state
(`num_deleted_docs`, `opstamp`) are identical to the original's, and
`with_delete_meta` likewise preserves schema, directory and id; both are
pure copy-on-write constructions, so the original value is never
mutated. -/
theorem c4_with_max_doc_copy_on_write :
    ∀ (s : Segment) (n : Nat) (num_deleted_docs : Nat) (opstamp : Opstamp),
      (s.with_max_doc n).meta.max_doc = n
      ∧ (s.with_max_doc n).schema = s.schema
      ∧ (s.with_max_doc n).directory = s.directory
      ∧ (s.with_max_doc n).meta.id = s.meta.id
      ∧ (s.with_max_doc n).meta.num_deleted_docs = s.meta.num_deleted_docs
      ∧ (s.with_max_doc n).meta.opstamp = s.meta.opstamp
      ∧ (s.with_delete_meta num_deleted_docs opstamp).schema = s.schema
      ∧ (s.with_delete_meta num_deleted_docs opstamp).directory = s.directory
      ∧ (s.with_delete_meta num_deleted_docs opstamp).meta.id = s.meta.id :=
  fun _ _ _ _ => ⟨rfl, rfl, rfl, rfl, rfl, rfl, rfl, rfl, rfl⟩

/-- C5: along every sequence of operations applied to a `Segment` (from any
start, `for_index` and `new_unpersisted` included) or to a `SegmentEntry`,
the active `SegmentDirectory` variant never moves from Persisted back to
Volatile (adjacent states satisfy Persisted → Persisted), and the variant
changes at most once along the whole trace; `for_index` starts Persisted
and `new_unpersisted` starts Volatile. -/
theorem c5_directory_variant_monotone :
    (∀ (index : Index) (meta : SegmentMeta) (persisted : Bool),
        (Segment.for_index index meta persisted).directory.isPersisted = true)
    ∧ (∀ (meta : SegmentMeta) (schema : Schema),
        (Segment.new_unpersisted meta schema).directory.isPersisted = false)
    ∧ (∀ (s : Segment) (ops : List SegmentOp),
        List.Chain' (fun a b : Bool => a = true → b = true)
          ((segmentStates s ops).map (fun x => x.directory.isPersisted))
        ∧ boolChanges ((segmentStates s ops).map (fun x => x.directory.isPersisted)) ≤ 1)
    ∧ (∀ (e : SegmentEntry) (ops : List EntryOp),
        List.Chain' (fun a b : Bool => a = true → b = true)
          ((entryStates e ops).map (fun x => x.directory.isPersisted))
        ∧ boolChanges ((entryStates e ops).map (fun x => x.directory.isPersisted)) ≤ 1) := by
  refine ⟨fun _ _ _ => rfl, fun _ _ => rfl, ?_, ?_⟩
  · intro s ops
    rw [segmentStates_persistedTrace]
    refine ⟨chainImp_replicate _ _, ?_⟩
    rw [boolChanges_replicate]
    exact Nat.zero_le 1
  · intro e ops
    rw [entryStates_persistedTrace]
    refine ⟨chainImp_replicate _ _, ?_⟩
    rw [boolChanges_replicate]
    exact Nat.zero_le 1

/-- C6: `Segment::open_read` either returns exactly the byte source that
the underlying directory produced for `relative_path(component)`, or fails
with exactly the `OpenReadError` (`FileDoesNotExist`/`IoError`) that the
underlying directory produced for that path — the error is propagated
verbatim, with a single delegated call and no retry. -/
theorem c6_open_read_propagates_verbatim :
    ∀ (s : Segment) (component : SegmentComponent),
      (∃ bytes, s.open_read component = Except.ok bytes
          ∧ s.directory.open_read (s.relative_path component) = Except.ok bytes)
      ∨ (∃ e, s.open_read component = Except.error e
          ∧ s.directory.open_read (s.relative_path component) = Except.error e) := by
  intro s component
  cases h : s.directory.open_read (s.relative_path component) with
  | ok bytes =>
      left
      refine ⟨bytes, ?_, rfl⟩
      simp [Segment.open_read, h]
  | error e =>
      right
      refine ⟨e, ?_, rfl⟩
      simp [Segment.open_read, h]

/-- C7: if `open_write(component)` succeeds with a handle at `path`, then
writing bytes through that handle and releasing it makes a subsequent
`open_read(component)` on the resulting segment return exactly those
bytes. -/
theorem c7_write_read_roundtrip :
    ∀ (s : Segment) (component : SegmentComponent) (bytes : List Nat) (path : String)
      (t : Segment),
      s.open_write component = Except.ok (path, t) →
      (t.writeAll path bytes).open_read component = Except.ok bytes := by
  intro s component bytes path t h
  simp only [Segment.open_write] at h
  cases hd : s.directory.open_write (s.relative_path component) with
  | error e => rw [hd] at h; cases h
  | ok d2 =>
      rw [hd] at h
      cases h
      simp [Segment.open_read, Segment.writeAll, Segment.relative_path,
        SegmentDirectory.open_read_writeAll]

/-- C8: `relative_path` is a pure derivation from the segment id and the
component — two segments with equal descriptor ids yield the identical path
for every component, whatever their other fields. -/
theorem c8_relative_path_pure :
    ∀ (s1 s2 : Segment) (component : SegmentComponent),
      s1.meta.id = s2.meta.id →
      s1.relative_path component = s2.relative_path component := by
  intro s1 s2 component h
  simp [Segment.relative_path, SegmentMeta.relative_path, SegmentId.uuid_string, h]

/-- C8 witness: two concrete segments sharing id 7 but differing in every
other field produce the same path for the postings component. -/
theorem c8_relative_path_pure_witness :
    (Segment.new_unpersisted ⟨7, 10, 0, 0, 0⟩ ⟨["title"]⟩).meta.id
        = (Segment.new_unpersisted ⟨7, 99, 3, 5, 1⟩ ⟨[]⟩).meta.id
    ∧ (Segment.new_unpersisted ⟨7, 10, 0, 0, 0⟩ ⟨["title"]⟩).relative_path
          SegmentComponent.Postings
        = (Segment.new_unpersisted ⟨7, 99, 3, 5, 1⟩ ⟨[]⟩).relative_path
            SegmentComponent.Postings :=
  ⟨rfl, c8_relative_path_pure (Segment.new_unpersisted ⟨7, 10, 0, 0, 0⟩ ⟨["title"]⟩)
    (Segment.new_unpersisted ⟨7, 99, 3, 5, 1⟩ ⟨[]⟩) SegmentComponent.Postings rfl⟩

/-- C9: a segment freshly created by `new_unpersisted` is backed by a new
empty Volatile store, and `open_read` on it fails with
`FileDoesNotExist` at the component's derived path, for every
component. -/
theorem c9_new_unpersisted_reads_not_found :
    ∀ (meta : SegmentMeta) (schema : Schema) (component : SegmentComponent),
      (Segment.new_unpersisted meta schema).directory
          = SegmentDirectory.Volatile RAMDirectory.create
      ∧ (Segment.new_unpersisted meta schema).open_read component
          = Except.error (OpenReadError.FileDoesNotExist
              ((Segment.new_unpersisted meta schema).relative_path component)) :=
  fun _ _ _ => ⟨rfl, rfl⟩

/-- C10: `for_index` returns a segment whose directory is the Persisted
variant holding the index's directory, whose schema is the index's schema,
and whose meta is exactly the caller-supplied meta; the `persisted`
argument is ignored, so the result is independent of it. -/
theorem c10_for_index_ignores_persisted_flag :
    ∀ (index : Index) (meta : SegmentMeta) (persisted : Bool),
      (Segment.for_index index meta persisted).directory
          = SegmentDirectory.Persisted index.directory
      ∧ (Segment.for_index index meta persisted).schema = index.schema
      ∧ (Segment.for_index index meta persisted).meta = meta
      ∧ Segment.for_index index meta true = Segment.for_index index meta false :=
  fun _ _ _ => ⟨rfl, rfl, rfl, rfl⟩

/-- C7 witness: on a fresh unpersisted segment, `open_write` on the store
component succeeds with path "1.store"; writing `[1, 2, 3]` through the
handle and reading the component back yields exactly `[1, 2, 3]`. -/
theorem c7_write_read_roundtrip_witness :
    (({ Segment.new_unpersisted ⟨1, 0, 0, 0, 0⟩ ⟨["body"]⟩ with
          directory := SegmentDirectory.Volatile ⟨[("1.store", [])]⟩ }).writeAll "1.store"
        [1, 2, 3]).open_read SegmentComponent.Store = Except.ok [1, 2, 3] :=
  c7_write_read_roundtrip (Segment.new_unpersisted ⟨1, 0, 0, 0, 0⟩ ⟨["body"]⟩)
    SegmentComponent.Store [1, 2, 3] "1.store"
    { Segment.new_unpersisted ⟨1, 0, 0, 0, 0⟩ ⟨["body"]⟩ with
        directory := SegmentDirectory.Volatile ⟨[("1.store", [])]⟩ }
    (by rfl)
